import Mathlib

/-!
Verification of the credential and envelope-encryption core of
`secure-data-login-zary/app.py` (a Streamlit secret-storage vault).

The embedding follows the source line by line:
  * `derive_key` models `derive_key(password, salt, iterations)` (app.py:84-86),
    which calls `pbkdf2_hmac('sha256', password.encode(), salt, iterations)`
    and base64-encodes the result.  PBKDF2 is an external library primitive;
    it is modelled as an ideal deterministic KDF: the derived key is an opaque
    value determined exactly by (password, salt, iterations), distinct inputs
    giving distinct keys (the standard symbolic-cryptography idealization).
  * `fernet_encrypt` / `fernet_decrypt` model `Fernet(key).encrypt` /
    `Fernet(key).decrypt` (library primitives): an ideal authenticated
    cipher.  A token carries the embedded nonce, the body, and an integrity
    tag bound to (key, nonce, body); decryption verifies the tag and fails
    (Python: raises, caught by the bare `except`) whenever it does not match.
  * base64 encode/decode (`urlsafe_b64encode`/`urlsafe_b64decode`) is an
    injective encoding with decode inverting encode; it is modelled as an
    opaque wrapper with exactly those properties.
  * The Streamlit page handlers `login_page`, `store_data_page`,
    `retrieve_data_page` (app.py:131-230) are modelled as pure transition
    functions on the session state.  Randomness (`os.urandom(16)` salts, the
    fresh Fernet nonce) is passed in as an explicit argument.  Each handler
    additionally returns the list of iteration counts of the `derive_key`
    calls it performed, in order, so that statements about "no derivation
    happened" and "every derivation uses the fixed count" can be made.
-/

/-- Byte sequences (e.g. the 16-byte salts from `os.urandom(16)`). -/
abbrev Bytes := List Nat

/-- app.py:11 `MAX_FAILED_ATTEMPTS = 3`. -/
def MAX_FAILED_ATTEMPTS : Nat := 3

/-- app.py:13 `PBKDF2_ITERATIONS = 100000`. -/
def PBKDF2_ITERATIONS : Nat := 100000

/-- Result of `urlsafe_b64encode(..).decode()`: an injective textual encoding
of a byte string.  Modelled as an opaque wrapper so that encoding is
injective and decoding inverts it, exactly as for real base64. -/
structure B64 where
  raw : Bytes
deriving DecidableEq

/-- app.py: `urlsafe_b64encode(b).decode()` (used at lines 147, 188). -/
def urlsafe_b64encode (b : Bytes) : B64 := ⟨b⟩

/-- app.py: `urlsafe_b64decode(s)` (used at lines 153, 219). -/
def urlsafe_b64decode (s : B64) : Bytes := s.raw

/-- The value returned by `derive_key` (app.py:84-86):
`urlsafe_b64encode(pbkdf2_hmac('sha256', password.encode(), salt, iterations))`.
Idealized KDF output: an opaque value determined by its three inputs. -/
inductive DKey where
  | pbkdf2_sha256 (password : String) (salt : Bytes) (iterations : Nat)
deriving DecidableEq

/-- app.py:84-86 `derive_key(password, salt, iterations=PBKDF2_ITERATIONS)`.
The Python default argument is modelled by passing `PBKDF2_ITERATIONS`
explicitly at every call site (the source never overrides the default). -/
def derive_key (password : String) (salt : Bytes) (iterations : Nat) : DKey :=
  DKey.pbkdf2_sha256 password salt iterations

/-- The HMAC integrity tag inside a Fernet token, bound to the key, the
embedded nonce/IV and the ciphertext body (ideal-MAC model). -/
inductive Tag where
  | mk (key : DKey) (nonce : Bytes) (body : String)
deriving DecidableEq

/-- The opaque string produced by `Fernet(key).encrypt(..)` (app.py:185):
a token embedding a fresh nonce, the body, and the integrity tag. -/
structure FernetToken where
  nonce : Bytes
  body : String
  tag : Tag
deriving DecidableEq

/-- Library primitive `Fernet(key).encrypt(data.encode()).decode()`:
builds a token over the plaintext with a fresh `nonce` and a valid tag. -/
def fernet_encrypt (key : DKey) (nonce : Bytes) (data : String) : FernetToken :=
  { nonce := nonce, body := data, tag := Tag.mk key nonce data }

/-- Library primitive `Fernet(key).decrypt(tok)` : verifies the integrity
tag against the supplied key; on mismatch (wrong key OR a token whose tag
does not authenticate its contents) it fails — `none` models the exception
caught at app.py:227. -/
def fernet_decrypt (key : DKey) (tok : FernetToken) : Option String :=
  if tok.tag = Tag.mk key tok.nonce tok.body then some tok.body else none

/-- One vault entry as stored in the per-user `"entries"` list
(app.py:186-189): the ciphertext and the base64 of its 16-byte salt. -/
structure Entry where
  encrypted_data : FernetToken
  entry_salt : B64
deriving DecidableEq

/-- One account record `users[username]` (app.py:146-150). -/
structure Account where
  password_salt : B64
  password_hash : DKey
  entries : List Entry
deriving DecidableEq

/-- The persisted/in-memory store: a username-keyed dict, modelled as an
association list in insertion order (Python dicts preserve it). -/
abbrev Store := List (String × Account)

/-- Python `username in users` / `users[username]` on the dict. -/
def lookupStore (users : Store) (username : String) : Option Account :=
  (users.find? (fun p => p.1 = username)).map (fun p => p.2)

/-- `users[username] = acct` for a username NOT yet present: Python dicts
append new keys at the end in insertion order. -/
def insertStore (users : Store) (username : String) (acct : Account) : Store :=
  users ++ [(username, acct)]

/-- Replace the account stored under `username` (models in-place mutation of
`users[username]["entries"]`, app.py:191). -/
def updateStore (users : Store) (username : String) (acct : Account) : Store :=
  users.map (fun p => if p.1 = username then (p.1, acct) else p)

/-- The backing file `data_store.json` as `load_data` (app.py:89-96) can
observe it: absent; present but unreadable (`open` raises `PermissionError`
or another `OSError`); present but not valid UTF-8 (`json.load` raises
`UnicodeDecodeError` while reading); valid text but malformed JSON
(`json.load` raises `json.JSONDecodeError`); or parsing to a store
document. -/
inductive FileState where
  | missing
  | unreadable
  | undecodable
  | malformedJson
  | parsed (doc : Store)
deriving DecidableEq

/-- Exceptions that escape `load_data` uncaught: the `except` clause at
app.py:94 names only `json.JSONDecodeError` and `FileNotFoundError`
(the latter arm is dead code behind the `os.path.exists` check), so
`PermissionError` from `open` and `UnicodeDecodeError` from decoding the
file's bytes propagate to the caller. -/
inductive LoadError where
  | permissionError
  | unicodeDecodeError
deriving DecidableEq

/-- app.py:89-96 `load_data()`: returns `{}` when the file does not exist;
returns `{}` when `json.load` raises `json.JSONDecodeError` (the caught
arm); returns the parsed document unchanged on success; and RAISES —
`Except.error` — when `open` fails with `PermissionError` or the content
is not valid UTF-8, since neither exception matches the `except` tuple. -/
def load_data (fs : FileState) : Except LoadError Store :=
  match fs with
  | FileState.missing => Except.ok []
  | FileState.unreadable => Except.error LoadError.permissionError
  | FileState.undecodable => Except.error LoadError.unicodeDecodeError
  | FileState.malformedJson => Except.ok []
  | FileState.parsed doc => Except.ok doc

/-- The Streamlit session state (app.py:103-113) plus the backing file. -/
structure AppState where
  data_store : Store
  failed_attempts : Nat
  authorized : Bool
  current_user : String
  file : FileState
deriving DecidableEq

/-- app.py:98-100 `save_data(data)`: whole-document overwrite of the file. -/
def save_data (s : AppState) (data : Store) : AppState :=
  { s with file := FileState.parsed data }

/-- Process start (app.py:103-113): the store is loaded from the file, the
failed-attempt counter starts at 0, nobody is logged in.  When `load_data`
raises (unreadable or undecodable file) the uncaught exception aborts the
Streamlit script, so no session state comes into existence: `none`. -/
def initialState (fs : FileState) : Option AppState :=
  match load_data fs with
  | Except.ok doc =>
      some { data_store := doc, failed_attempts := 0, authorized := false,
             current_user := "", file := fs }
  | Except.error _ => none

/-- Observable outcome of one `login_page` button press (app.py:138-164). -/
inductive LoginResult where
  | missingFields
  | accountCreated
  | invalidCredentials (remaining : Int)
  | loggedIn
deriving DecidableEq

/-- app.py:131-164 `login_page`, the body of the `Login / Register` button:
empty-field check, silent account provisioning for an unknown username,
hash comparison and failed-attempt accounting for a known one.  `freshSalt`
is the `generate_salt()` value (app.py:145).  The third component is the
ordered list of iteration counts of the `derive_key` calls performed. -/
def login_page (s : AppState) (username password : String) (freshSalt : Bytes) :
    LoginResult × AppState × List Nat :=
  if username = "" ∨ password = "" then
    (LoginResult.missingFields, s, [])
  else
    match lookupStore s.data_store username with
    | none =>
        let acct : Account :=
          { password_salt := urlsafe_b64encode freshSalt,
            password_hash := derive_key password freshSalt PBKDF2_ITERATIONS,
            entries := [] }
        let users := insertStore s.data_store username acct
        let s1 := { s with data_store := users, current_user := username,
                           authorized := true }
        (LoginResult.accountCreated, save_data s1 users, [PBKDF2_ITERATIONS])
    | some acct =>
        let stored_salt := urlsafe_b64decode acct.password_salt
        let attempt_hash := derive_key password stored_salt PBKDF2_ITERATIONS
        if attempt_hash ≠ acct.password_hash then
          let s1 := { s with failed_attempts := s.failed_attempts + 1 }
          (LoginResult.invalidCredentials
             ((MAX_FAILED_ATTEMPTS : Int) - (s1.failed_attempts : Int)),
           s1, [PBKDF2_ITERATIONS])
        else
          let s1 := { s with current_user := username, authorized := true }
          (LoginResult.loggedIn, save_data s1 s.data_store, [PBKDF2_ITERATIONS])

/-- app.py:181-189, the sealing core of `store_data_page`: fresh entry salt,
key derivation, Fernet encryption, and the appended entry record. -/
def sealEntry (data passkey : String) (entry_salt nonce : Bytes) : Entry :=
  let key := derive_key passkey entry_salt PBKDF2_ITERATIONS
  { encrypted_data := fernet_encrypt key nonce data,
    entry_salt := urlsafe_b64encode entry_salt }

/-- app.py:219-224, the opening core of `retrieve_data_page`: re-derive the
key from the stored entry salt and Fernet-decrypt the ciphertext. -/
def openEntry (e : Entry) (passkey : String) : Option String :=
  let entry_salt := urlsafe_b64decode e.entry_salt
  let key := derive_key passkey entry_salt PBKDF2_ITERATIONS
  fernet_decrypt key e.encrypted_data

/-- Observable outcome of one `store_data_page` button press. -/
inductive StoreResult where
  | missingFields
  | saved (encrypted_data : FernetToken)
  | keyError
deriving DecidableEq

/-- app.py:169-197 `store_data_page`, the body of the `Encrypt & Save`
button.  `entry_salt` is the `generate_salt()` value, `nonce` the fresh
randomness inside `Fernet.encrypt`.  Note the source derives the key and
encrypts BEFORE indexing `data_store[current_user]`, so a missing current
user (Python `KeyError`) still performs one derivation. -/
def store_data_page (s : AppState) (data passkey : String)
    (entry_salt nonce : Bytes) : StoreResult × AppState × List Nat :=
  if data = "" ∨ passkey = "" then
    (StoreResult.missingFields, s, [])
  else
    let new_entry := sealEntry data passkey entry_salt nonce
    match lookupStore s.data_store s.current_user with
    | none => (StoreResult.keyError, s, [PBKDF2_ITERATIONS])
    | some acct =>
        let acct1 := { acct with entries := acct.entries ++ [new_entry] }
        let users := updateStore s.data_store s.current_user acct1
        let s1 := { s with data_store := users }
        (StoreResult.saved new_entry.encrypted_data, save_data s1 users,
         [PBKDF2_ITERATIONS])

/-- The `Encrypted Data` text typed on the retrieve page: empty, a non-empty
string that is not the encoding of any Fernet token (such a string can never
equal a stored `encrypted_data`, which always is one), or a token. -/
inductive CipherInput where
  | empty
  | malformed
  | token (t : FernetToken)
deriving DecidableEq

/-- Observable outcome of one `retrieve_data_page` button press. -/
inductive RetrieveResult where
  | missingFields
  | keyError
  | notFound
  | decrypted (data : String)
  | decryptError
deriving DecidableEq

/-- app.py:200-230 `retrieve_data_page`, the body of the `Decrypt` button:
empty-field check, linear first-match lookup of the typed ciphertext among
the current user's entries (`next(...)`, app.py:213), then key derivation
from the found entry's salt and Fernet decryption, with every decryption
failure collapsed to the single `Invalid passkey or corrupted data` error
(the bare `except`, app.py:227-228). -/
def retrieve_data_page (s : AppState) (encrypted_input : CipherInput)
    (passkey : String) : RetrieveResult × AppState × List Nat :=
  if encrypted_input = CipherInput.empty ∨ passkey = "" then
    (RetrieveResult.missingFields, s, [])
  else
    match lookupStore s.data_store s.current_user with
    | none => (RetrieveResult.keyError, s, [])
    | some acct =>
        match encrypted_input with
        | CipherInput.token t =>
            match acct.entries.find? (fun e => e.encrypted_data = t) with
            | none => (RetrieveResult.notFound, s, [])
            | some e =>
                let entry_salt := urlsafe_b64decode e.entry_salt
                let key := derive_key passkey entry_salt PBKDF2_ITERATIONS
                match fernet_decrypt key t with
                | some d => (RetrieveResult.decrypted d, s, [PBKDF2_ITERATIONS])
                | none => (RetrieveResult.decryptError, s, [PBKDF2_ITERATIONS])
        | _ => (RetrieveResult.notFound, s, [])

/-- Operational model of the comparison `attempt_hash != users[username]["password_hash"]`
at app.py:155: CPython string inequality compares lengths, then scans the
characters left to right and stops at the first mismatch.  Returns the
inequality verdict together with the number of character comparisons
performed (the running-time measure). -/
def pyStrNeScan : List Char → List Char → Bool × Nat
  | [], [] => (false, 0)
  | [], _ :: _ => (true, 0)
  | _ :: _, [] => (true, 0)
  | a :: as, b :: bs =>
      if a = b then
        let r := pyStrNeScan as bs
        (r.1, r.2 + 1)
      else
        (true, 1)

/-- Verdict of the short-circuit string inequality at app.py:155. -/
def pyStrNe (a b : String) : Bool := (pyStrNeScan a.data b.data).1

/-- Number of character comparisons the inequality at app.py:155 performs. -/
def pyStrNeSteps (a b : String) : Nat := (pyStrNeScan a.data b.data).2

/-! ### Helper lemmas -/

/-- `find?` returns `none` when no element satisfies the predicate. -/
theorem find?_none_of_all {α : Type} (p : α → Bool) (l : List α)
    (h : ∀ x ∈ l, p x = false) : l.find? p = none := by
  induction l with
  | nil => rfl
  | cons hd tl ih =>
      have hh := h hd (by simp)
      rw [List.find?_cons_of_neg _ (by simp [hh])]
      exact ih (fun x hx => h x (by simp [hx]))

/-- `find?` returns the FIRST element satisfying the predicate. -/
theorem find?_first_match {α : Type} (p : α → Bool) (l1 l2 : List α) (e : α)
    (h1 : ∀ x ∈ l1, p x = false) (he : p e = true) :
    (l1 ++ e :: l2).find? p = some e := by
  induction l1 with
  | nil => rw [List.nil_append, List.find?_cons_of_pos _ he]
  | cons hd tl ih =>
      have hh := h1 hd (by simp)
      rw [List.cons_append, List.find?_cons_of_neg _ (by simp [hh])]
      exact ih (fun x hx => h1 x (by simp [hx]))

/-- Inserting a fresh username makes it found with exactly the new account. -/
theorem lookupStore_insert_self (l : Store) (u : String) (a : Account)
    (h : lookupStore l u = none) :
    lookupStore (insertStore l u a) u = some a := by
  unfold lookupStore insertStore
  unfold lookupStore at h
  have hfind : l.find? (fun p => p.1 = u) = none := by
    cases hf : l.find? (fun p => p.1 = u) with
    | none => rfl
    | some v => rw [hf] at h; simp at h
  rw [find?_first_match (fun p => p.1 = u) l [] (u, a)
        (fun x hx => by
          have := List.find?_eq_none.mp hfind x hx
          simpa using this)
        (by simp)]
  rfl

/-! ### C1 -/

/-- C1: sealing a plaintext under a passkey (fresh entry salt, key derived
from passkey and that salt, Fernet encryption) and opening the resulting
entry with the same passkey (key re-derived from the stored entry salt,
Fernet decryption) returns the original plaintext exactly. -/
theorem c1_seal_open_roundtrip (data passkey : String) (entry_salt nonce : Bytes)
    (hpk : passkey ≠ "") :
    openEntry (sealEntry data passkey entry_salt nonce) passkey = some data := by
  simp [openEntry, sealEntry, fernet_encrypt, fernet_decrypt,
        urlsafe_b64encode, urlsafe_b64decode]

/-- Witness for C1 at the spec's concrete scenario. -/
theorem c1_seal_open_roundtrip_witness :
    "k1" ≠ "" ∧
    openEntry (sealEntry "hello world" "k1" [7, 7] [3, 1]) "k1" =
      some "hello world" :=
  ⟨by decide, c1_seal_open_roundtrip "hello world" "k1" [7, 7] [3, 1] (by decide)⟩

/-! ### C2 -/

/-- C2: opening an entry sealed under `p1` with a different passkey `p2`
fails (no plaintext, partial or garbled, is returned); any entry whose
token's tag does not authenticate under the derived key — which covers
corrupted or tampered ciphertext — fails the same way; and at the page
level every decryption failure is reported as the ONE generic error
`RetrieveResult.decryptError` (the single `Invalid passkey or corrupted
data` message of app.py:228), so the two causes are indistinguishable. -/
theorem c2_wrong_key_and_tamper_rejection (data p1 p2 : String)
    (entry_salt nonce : Bytes) (hne : p1 ≠ p2) :
    openEntry (sealEntry data p1 entry_salt nonce) p2 = none ∧
    (∀ (e : Entry),
        e.encrypted_data.tag ≠
          Tag.mk (derive_key p2 (urlsafe_b64decode e.entry_salt) PBKDF2_ITERATIONS)
            e.encrypted_data.nonce e.encrypted_data.body →
        openEntry e p2 = none) ∧
    (∀ (s : AppState) (t : FernetToken) (acct : Account) (e : Entry),
        p2 ≠ "" →
        lookupStore s.data_store s.current_user = some acct →
        acct.entries.find? (fun x => x.encrypted_data = t) = some e →
        fernet_decrypt
          (derive_key p2 (urlsafe_b64decode e.entry_salt) PBKDF2_ITERATIONS) t =
          none →
        retrieve_data_page s (CipherInput.token t) p2 =
          (RetrieveResult.decryptError, s, [PBKDF2_ITERATIONS])) := by
  refine ⟨?_, ?_, ?_⟩
  · simp [openEntry, sealEntry, fernet_encrypt, fernet_decrypt, derive_key,
          urlsafe_b64encode, urlsafe_b64decode, hne]
  · intro e htag
    simp [openEntry, fernet_decrypt, htag]
  · intro s t acct e hp2 hlk hfind hdec
    simp [retrieve_data_page, hp2, hlk, hfind, hdec]

/-- Witness for C2 at the spec's concrete scenario (`k1` vs `k2`). -/
theorem c2_wrong_key_and_tamper_rejection_witness :
    "k1" ≠ "k2" ∧
    openEntry (sealEntry "hello world" "k1" [7, 7] [3, 1]) "k2" = none :=
  ⟨by decide,
   (c2_wrong_key_and_tamper_rejection "hello world" "k1" "k2" [7, 7] [3, 1]
      (by decide)).1⟩

/-! ### C3 -/

/-- A wrong-password attempt on an existing account: error result, counter
incremented, everything else (store, file, user) untouched.  Shared shape
of app.py:155-159. -/
theorem login_wrong_attempt (s : AppState) (u p : String) (b : Bytes)
    (a : Account) (hu : u ≠ "") (hp : p ≠ "")
    (hl : lookupStore s.data_store u = some a)
    (hw : derive_key p (urlsafe_b64decode a.password_salt) PBKDF2_ITERATIONS ≠
            a.password_hash) :
    login_page s u p b =
      (LoginResult.invalidCredentials
         ((MAX_FAILED_ATTEMPTS : Int) - ((s.failed_attempts + 1 : Nat) : Int)),
       { s with failed_attempts := s.failed_attempts + 1 }, [PBKDF2_ITERATIONS]) := by
  simp [login_page, hu, hp, hl, hw]

/-- C3: `registerOrLogin` for an absent username with a non-empty password
creates the account (fresh salt, derived verifier, empty entry list) and
succeeds immediately as a login; a subsequent call for the same username
with a different password fails with invalid-credentials and leaves the
whole store — in particular that account — unchanged. -/
theorem c3_register_then_reject_overwrite (s : AppState) (u p1 : String)
    (salt1 : Bytes) (hu : u ≠ "") (hp1 : p1 ≠ "")
    (habs : lookupStore s.data_store u = none) :
    (login_page s u p1 salt1).1 = LoginResult.accountCreated ∧
    (login_page s u p1 salt1).2.1.authorized = true ∧
    (login_page s u p1 salt1).2.1.current_user = u ∧
    lookupStore (login_page s u p1 salt1).2.1.data_store u =
      some { password_salt := urlsafe_b64encode salt1,
             password_hash := derive_key p1 salt1 PBKDF2_ITERATIONS,
             entries := [] } ∧
    (∀ (p2 : String) (salt2 : Bytes), p2 ≠ "" → p2 ≠ p1 →
       (login_page (login_page s u p1 salt1).2.1 u p2 salt2).1 =
         LoginResult.invalidCredentials
           ((MAX_FAILED_ATTEMPTS : Int) -
              (((login_page s u p1 salt1).2.1.failed_attempts + 1 : Nat) : Int)) ∧
       (login_page (login_page s u p1 salt1).2.1 u p2 salt2).2.1.data_store =
         (login_page s u p1 salt1).2.1.data_store) := by
  have hstep :
      login_page s u p1 salt1 =
        (LoginResult.accountCreated,
         save_data
           { s with
             data_store := insertStore s.data_store u
               { password_salt := urlsafe_b64encode salt1,
                 password_hash := derive_key p1 salt1 PBKDF2_ITERATIONS,
                 entries := [] },
             current_user := u, authorized := true }
           (insertStore s.data_store u
              { password_salt := urlsafe_b64encode salt1,
                password_hash := derive_key p1 salt1 PBKDF2_ITERATIONS,
                entries := [] }),
         [PBKDF2_ITERATIONS]) := by
    simp [login_page, hu, hp1, habs]
  have hfound :
      lookupStore (login_page s u p1 salt1).2.1.data_store u =
        some { password_salt := urlsafe_b64encode salt1,
               password_hash := derive_key p1 salt1 PBKDF2_ITERATIONS,
               entries := [] } := by
    rw [hstep]
    exact lookupStore_insert_self s.data_store u _ habs
  refine ⟨by rw [hstep], by rw [hstep]; rfl, by rw [hstep]; rfl, hfound, ?_⟩
  intro p2 salt2 hp2 hne
  have hw :
      derive_key p2
          (urlsafe_b64decode
            (Account.password_salt
              { password_salt := urlsafe_b64encode salt1,
                password_hash := derive_key p1 salt1 PBKDF2_ITERATIONS,
                entries := [] })) PBKDF2_ITERATIONS ≠
        Account.password_hash
          { password_salt := urlsafe_b64encode salt1,
            password_hash := derive_key p1 salt1 PBKDF2_ITERATIONS,
            entries := [] } := by
    simp [derive_key, urlsafe_b64decode, urlsafe_b64encode, hne]
  have := login_wrong_attempt (login_page s u p1 salt1).2.1 u p2 salt2 _
    hu hp2 hfound hw
  rw [this]
  exact ⟨rfl, rfl⟩

/-- Witness for C3: fresh process, register `alice`, then a second attempt
with a different password. -/
theorem c3_register_then_reject_overwrite_witness :
    "alice" ≠ "" ∧ "pw1" ≠ "" ∧
    lookupStore
      (AppState.data_store
        { data_store := [], failed_attempts := 0, authorized := false,
          current_user := "", file := FileState.missing }) "alice" = none ∧
    (login_page
        { data_store := [], failed_attempts := 0, authorized := false,
          current_user := "", file := FileState.missing }
        "alice" "pw1" [1, 2]).1 = LoginResult.accountCreated :=
  ⟨by decide, by decide, by decide,
   (c3_register_then_reject_overwrite
      { data_store := [], failed_attempts := 0, authorized := false,
        current_user := "", file := FileState.missing }
      "alice" "pw1" [1, 2] (by decide) (by decide) (by decide)).1⟩

/-! ### C4 -/

/-- C4 (amended): the comparison at app.py:155 is Python's ordinary
short-circuit string inequality, NOT a constant-time compare: on two
strings that agree on a common prefix and then differ, the number of
character comparisons performed is the length of that prefix plus one, so
the running time DOES depend on the position of the first differing
byte. -/
theorem c4_comparison_short_circuits (pre r1 r2 : List Char) (a b : Char)
    (hab : a ≠ b) :
    (pyStrNeScan (pre ++ a :: r1) (pre ++ b :: r2)).1 = true ∧
    (pyStrNeScan (pre ++ a :: r1) (pre ++ b :: r2)).2 = pre.length + 1 := by
  induction pre with
  | nil => simp [pyStrNeScan, hab]
  | cons c cs ih =>
      have hstep : pyStrNeScan (c :: (cs ++ a :: r1)) (c :: (cs ++ b :: r2)) =
          ((pyStrNeScan (cs ++ a :: r1) (cs ++ b :: r2)).1,
           (pyStrNeScan (cs ++ a :: r1) (cs ++ b :: r2)).2 + 1) := by
        simp [pyStrNeScan]
      rw [List.cons_append, List.cons_append, hstep]
      exact ⟨ih.1, by rw [ih.2]; simp⟩

/-- Witness for the amended C4 on concrete inputs. -/
theorem c4_comparison_short_circuits_witness :
    ('A' : Char) ≠ 'B' ∧
    (pyStrNeScan (['x'] ++ 'A' :: ['y']) (['x'] ++ 'B' :: ['z'])).2 = 2 :=
  ⟨by decide,
   (c4_comparison_short_circuits ['x'] ['y'] ['z'] 'A' 'B' (by decide)).2⟩

/-- Counterexample to C4 as stated: against one stored 44-character
verifier string, an attempt differing at position 0 costs 1 character
comparison while an attempt of the same length differing at position 42
costs 43, so the running time of the `!=` at app.py:155 depends on the
position of the first differing byte. -/
theorem c4_counterexample_not_constant_time :
    pyStrNe "BAAAAAAAAAAAAAAAAAAAAAAAAAAAAAAAAAAAAAAAAAA="
        "AAAAAAAAAAAAAAAAAAAAAAAAAAAAAAAAAAAAAAAAAAA=" = true ∧
    pyStrNe "AAAAAAAAAAAAAAAAAAAAAAAAAAAAAAAAAAAAAAAAAAB="
        "AAAAAAAAAAAAAAAAAAAAAAAAAAAAAAAAAAAAAAAAAAA=" = true ∧
    "BAAAAAAAAAAAAAAAAAAAAAAAAAAAAAAAAAAAAAAAAAA=".length =
      "AAAAAAAAAAAAAAAAAAAAAAAAAAAAAAAAAAAAAAAAAAB=".length ∧
    pyStrNeSteps "BAAAAAAAAAAAAAAAAAAAAAAAAAAAAAAAAAAAAAAAAAA="
        "AAAAAAAAAAAAAAAAAAAAAAAAAAAAAAAAAAAAAAAAAAA=" = 1 ∧
    pyStrNeSteps "AAAAAAAAAAAAAAAAAAAAAAAAAAAAAAAAAAAAAAAAAAB="
        "AAAAAAAAAAAAAAAAAAAAAAAAAAAAAAAAAAAAAAAAAAA=" = 43 ∧
    pyStrNeSteps "BAAAAAAAAAAAAAAAAAAAAAAAAAAAAAAAAAAAAAAAAAA="
          "AAAAAAAAAAAAAAAAAAAAAAAAAAAAAAAAAAAAAAAAAAA=" ≠
      pyStrNeSteps "AAAAAAAAAAAAAAAAAAAAAAAAAAAAAAAAAAAAAAAAAAB="
          "AAAAAAAAAAAAAAAAAAAAAAAAAAAAAAAAAAAAAAAAAAA=" := by
  refine ⟨by decide, by decide, by decide, by decide, by decide, by decide⟩

/-! ### C5 -/

/-- No login outcome ever decreases the failed-attempt counter. -/
theorem login_counter_monotone (s : AppState) (u p : String) (b : Bytes) :
    s.failed_attempts ≤ (login_page s u p b).2.1.failed_attempts := by
  unfold login_page
  split
  · exact Nat.le_refl _
  · split
    · exact Nat.le_refl _
    · dsimp only
      split
      · exact Nat.le_succ _
      · exact Nat.le_refl _

/-- The store page never touches the failed-attempt counter. -/
theorem store_counter_unchanged (s : AppState) (d pk : String) (es n : Bytes) :
    (store_data_page s d pk es n).2.1.failed_attempts = s.failed_attempts := by
  unfold store_data_page
  split
  · rfl
  · split <;> rfl

/-- The retrieve page never changes the session state at all. -/
theorem retrieve_preserves_state (s : AppState) (ci : CipherInput) (pk : String) :
    (retrieve_data_page s ci pk).2.1 = s := by
  unfold retrieve_data_page
  split
  · rfl
  · split
    · rfl
    · split
      · split
        · rfl
        · dsimp only
          split <;> rfl
      · rfl

/-- C5: from a fresh process (counter 0), three consecutive wrong-password
attempts against existing accounts — possibly three DIFFERENT accounts,
since the counter is a single process-wide value — report remaining counts
2, 1, 0 in order and leave the counter at 3 with the store, the file, and
everything else unchanged; moreover no page operation ever decreases the
counter (it is reset only by process restart) and the persisted file is
written from the store alone, never from the counter. -/
theorem c5_global_attempt_counter (s0 : AppState)
    (u1 u2 u3 p1 p2 p3 : String) (b1 b2 b3 : Bytes) (a1 a2 a3 : Account)
    (h0 : s0.failed_attempts = 0)
    (hu1 : u1 ≠ "") (hp1 : p1 ≠ "") (hu2 : u2 ≠ "") (hp2 : p2 ≠ "")
    (hu3 : u3 ≠ "") (hp3 : p3 ≠ "")
    (hl1 : lookupStore s0.data_store u1 = some a1)
    (hl2 : lookupStore s0.data_store u2 = some a2)
    (hl3 : lookupStore s0.data_store u3 = some a3)
    (hw1 : derive_key p1 (urlsafe_b64decode a1.password_salt) PBKDF2_ITERATIONS ≠
             a1.password_hash)
    (hw2 : derive_key p2 (urlsafe_b64decode a2.password_salt) PBKDF2_ITERATIONS ≠
             a2.password_hash)
    (hw3 : derive_key p3 (urlsafe_b64decode a3.password_salt) PBKDF2_ITERATIONS ≠
             a3.password_hash) :
    (login_page s0 u1 p1 b1).1 = LoginResult.invalidCredentials 2 ∧
    (login_page (login_page s0 u1 p1 b1).2.1 u2 p2 b2).1 =
      LoginResult.invalidCredentials 1 ∧
    (login_page (login_page (login_page s0 u1 p1 b1).2.1 u2 p2 b2).2.1
        u3 p3 b3).1 = LoginResult.invalidCredentials 0 ∧
    (login_page (login_page (login_page s0 u1 p1 b1).2.1 u2 p2 b2).2.1
        u3 p3 b3).2.1 = { s0 with failed_attempts := 3 } ∧
    (∀ (s : AppState) (u p : String) (b : Bytes),
        s.failed_attempts ≤ (login_page s u p b).2.1.failed_attempts) ∧
    (∀ (s : AppState) (d pk : String) (es n : Bytes),
        (store_data_page s d pk es n).2.1.failed_attempts = s.failed_attempts) ∧
    (∀ (s : AppState) (ci : CipherInput) (pk : String),
        (retrieve_data_page s ci pk).2.1.failed_attempts = s.failed_attempts) := by
  have e1 := login_wrong_attempt s0 u1 p1 b1 a1 hu1 hp1 hl1 hw1
  have hs1 : (login_page s0 u1 p1 b1).2.1 =
      { s0 with failed_attempts := s0.failed_attempts + 1 } := by rw [e1]
  have e2 := login_wrong_attempt
    { s0 with failed_attempts := s0.failed_attempts + 1 } u2 p2 b2 a2
    hu2 hp2 hl2 hw2
  have hs2 : (login_page (login_page s0 u1 p1 b1).2.1 u2 p2 b2).2.1 =
      { s0 with failed_attempts := s0.failed_attempts + 1 + 1 } := by
    rw [hs1, e2]
  have e3 := login_wrong_attempt
    { s0 with failed_attempts := s0.failed_attempts + 1 + 1 } u3 p3 b3 a3
    hu3 hp3 hl3 hw3
  refine ⟨?_, ?_, ?_, ?_, login_counter_monotone, store_counter_unchanged,
          fun s ci pk => by rw [retrieve_preserves_state]⟩
  · rw [e1, h0]
    norm_num [MAX_FAILED_ATTEMPTS]
  · rw [hs1, e2]
    simp only [h0]
    norm_num [MAX_FAILED_ATTEMPTS]
  · rw [hs2, e3]
    simp only [h0]
    norm_num [MAX_FAILED_ATTEMPTS]
  · rw [hs2, e3]
    simp only [h0]

/-- Witness for C5: a concrete two-account store, wrong passwords on
`alice`, `bob`, `alice` in that order. -/
theorem c5_global_attempt_counter_witness :
    (login_page
        { data_store :=
            [("alice",
              { password_salt := urlsafe_b64encode [1],
                password_hash := derive_key "pw1" [1] PBKDF2_ITERATIONS,
                entries := [] }),
             ("bob",
              { password_salt := urlsafe_b64encode [2],
                password_hash := derive_key "pw2" [2] PBKDF2_ITERATIONS,
                entries := [] })],
          failed_attempts := 0, authorized := false, current_user := "",
          file := FileState.missing }
        "alice" "wrong" [9]).1 = LoginResult.invalidCredentials 2 :=
  (c5_global_attempt_counter
      { data_store :=
          [("alice",
            { password_salt := urlsafe_b64encode [1],
              password_hash := derive_key "pw1" [1] PBKDF2_ITERATIONS,
              entries := [] }),
           ("bob",
            { password_salt := urlsafe_b64encode [2],
              password_hash := derive_key "pw2" [2] PBKDF2_ITERATIONS,
              entries := [] })],
        failed_attempts := 0, authorized := false, current_user := "",
        file := FileState.missing }
      "alice" "bob" "alice" "wrong" "nope" "again" [9] [9] [9]
      { password_salt := urlsafe_b64encode [1],
        password_hash := derive_key "pw1" [1] PBKDF2_ITERATIONS, entries := [] }
      { password_salt := urlsafe_b64encode [2],
        password_hash := derive_key "pw2" [2] PBKDF2_ITERATIONS, entries := [] }
      { password_salt := urlsafe_b64encode [1],
        password_hash := derive_key "pw1" [1] PBKDF2_ITERATIONS, entries := [] }
      rfl (by decide) (by decide) (by decide) (by decide) (by decide) (by decide)
      (by decide) (by decide) (by decide)
      (by decide) (by decide) (by decide)).1

/-! ### C6 -/

/-- C6: an empty username or password on the login page, an empty data or
passkey on the store page, and an empty ciphertext or passkey on the
retrieve page are each rejected with the missing-fields error; the session
state (failed-attempt counter, store, file) is returned untouched and the
empty derivation trace shows no key derivation was performed. -/
theorem c6_missing_fields_rejected_before_derivation :
    (∀ (s : AppState) (u p : String) (b : Bytes), u = "" ∨ p = "" →
        login_page s u p b = (LoginResult.missingFields, s, [])) ∧
    (∀ (s : AppState) (d pk : String) (es n : Bytes), d = "" ∨ pk = "" →
        store_data_page s d pk es n = (StoreResult.missingFields, s, [])) ∧
    (∀ (s : AppState) (ci : CipherInput) (pk : String),
        ci = CipherInput.empty ∨ pk = "" →
        retrieve_data_page s ci pk = (RetrieveResult.missingFields, s, [])) := by
  refine ⟨?_, ?_, ?_⟩
  · intro s u p b h
    simp [login_page, h]
  · intro s d pk es n h
    simp [store_data_page, h]
  · intro s ci pk h
    simp [retrieve_data_page, h]

/-- Witness for C6: an empty password on the login page. -/
theorem c6_missing_fields_rejected_before_derivation_witness :
    login_page
        { data_store := [], failed_attempts := 0, authorized := false,
          current_user := "", file := FileState.missing }
        "alice" "" [1] =
      (LoginResult.missingFields,
       { data_store := [], failed_attempts := 0, authorized := false,
         current_user := "", file := FileState.missing }, []) :=
  c6_missing_fields_rejected_before_derivation.1
    { data_store := [], failed_attempts := 0, authorized := false,
      current_user := "", file := FileState.missing }
    "alice" "" [1] (Or.inr rfl)

/-! ### C7 -/

/-- Counterexample to C7 as stated: a backing file whose content is not
valid UTF-8 is content that fails to parse, yet `load_data` does NOT
return an empty store silently — the `UnicodeDecodeError` raised inside
`json.load` matches neither arm of the `except (json.JSONDecodeError,
FileNotFoundError)` clause at app.py:94 and propagates out, so `load()`
raises. -/
theorem c7_counterexample_load_can_raise :
    load_data FileState.undecodable =
      Except.error LoadError.unicodeDecodeError ∧
    load_data FileState.undecodable ≠ Except.ok ([] : Store) :=
  ⟨rfl, fun h => nomatch h⟩

/-- C7 (amended): `load_data` returns the empty store silently for a
missing backing file and for content whose JSON parsing fails with
`json.JSONDecodeError` — the only parse failure the `except` clause
catches — and a well-formed file is loaded fully into the in-memory store
at process start; but it RAISES an uncaught `UnicodeDecodeError` on
content that is not valid UTF-8 and an uncaught `PermissionError` on an
existing file that cannot be opened, so it is not true that it never
raises. -/
theorem c7_load_fallback_scope :
    load_data FileState.missing = Except.ok [] ∧
    load_data FileState.malformedJson = Except.ok [] ∧
    (∀ (doc : Store), load_data (FileState.parsed doc) = Except.ok doc) ∧
    load_data FileState.undecodable =
      Except.error LoadError.unicodeDecodeError ∧
    load_data FileState.unreadable = Except.error LoadError.permissionError ∧
    (∀ (fs : FileState) (st : AppState), initialState fs = some st →
        load_data fs = Except.ok st.data_store) := by
  refine ⟨rfl, rfl, fun _ => rfl, rfl, rfl, ?_⟩
  intro fs st h
  unfold initialState at h
  cases hload : load_data fs with
  | ok doc => rw [hload] at h; cases h; rfl
  | error e => rw [hload] at h; cases h

/-- Witness for the amended C7: a concrete well-formed file is loaded
fully into the session state at process start. -/
theorem c7_load_fallback_scope_witness :
    load_data (FileState.parsed []) = Except.ok ([] : Store) :=
  c7_load_fallback_scope.2.2.2.2.2 (FileState.parsed [])
    { data_store := [], failed_attempts := 0, authorized := false,
      current_user := "", file := FileState.parsed [] } rfl

/-! ### C8 -/

/-- Every login outcome performs either no derivation or exactly one with
the fixed iteration constant. -/
theorem login_trace_cases (s : AppState) (u p : String) (b : Bytes) :
    (login_page s u p b).2.2 = [] ∨
    (login_page s u p b).2.2 = [PBKDF2_ITERATIONS] := by
  unfold login_page
  split
  · exact Or.inl rfl
  · split
    · exact Or.inr rfl
    · dsimp only
      split
      · exact Or.inr rfl
      · exact Or.inr rfl

/-- Every store-page outcome performs either no derivation or exactly one
with the fixed iteration constant. -/
theorem store_trace_cases (s : AppState) (d pk : String) (es n : Bytes) :
    (store_data_page s d pk es n).2.2 = [] ∨
    (store_data_page s d pk es n).2.2 = [PBKDF2_ITERATIONS] := by
  unfold store_data_page
  split
  · exact Or.inl rfl
  · split
    · exact Or.inr rfl
    · exact Or.inr rfl

/-- Every retrieve-page outcome performs either no derivation or exactly
one with the fixed iteration constant. -/
theorem retrieve_trace_cases (s : AppState) (ci : CipherInput) (pk : String) :
    (retrieve_data_page s ci pk).2.2 = [] ∨
    (retrieve_data_page s ci pk).2.2 = [PBKDF2_ITERATIONS] := by
  unfold retrieve_data_page
  split
  · exact Or.inl rfl
  · split
    · exact Or.inl rfl
    · split
      · split
        · exact Or.inl rfl
        · dsimp only
          split
          · exact Or.inr rfl
          · exact Or.inr rfl
      · exact Or.inl rfl

/-- C8: the iteration count is the fixed constant 100000 (≥ 100000) baked
into the program, and EVERY key derivation any page handler performs — the
password verifier at registration and login, the per-entry key at seal and
open — runs with exactly that count, whatever the caller-supplied inputs
(usernames, passwords, passkeys, data, salts) are. -/
theorem c8_fixed_iteration_count :
    PBKDF2_ITERATIONS = 100000 ∧
    100000 ≤ PBKDF2_ITERATIONS ∧
    (∀ (s : AppState) (u p : String) (b : Bytes) (it : Nat),
        it ∈ (login_page s u p b).2.2 → it = PBKDF2_ITERATIONS) ∧
    (∀ (s : AppState) (d pk : String) (es n : Bytes) (it : Nat),
        it ∈ (store_data_page s d pk es n).2.2 → it = PBKDF2_ITERATIONS) ∧
    (∀ (s : AppState) (ci : CipherInput) (pk : String) (it : Nat),
        it ∈ (retrieve_data_page s ci pk).2.2 → it = PBKDF2_ITERATIONS) := by
  refine ⟨rfl, Nat.le_refl _, ?_, ?_, ?_⟩
  · intro s u p b it hit
    rcases login_trace_cases s u p b with h | h
    · rw [h] at hit; simp at hit
    · rw [h] at hit; simpa using hit
  · intro s d pk es n it hit
    rcases store_trace_cases s d pk es n with h | h
    · rw [h] at hit; simp at hit
    · rw [h] at hit; simpa using hit
  · intro s ci pk it hit
    rcases retrieve_trace_cases s ci pk with h | h
    · rw [h] at hit; simp at hit
    · rw [h] at hit; simpa using hit

/-- Witness for C8: the single derivation of a concrete registration runs
with 100000 iterations. -/
theorem c8_fixed_iteration_count_witness :
    (100000 : Nat) ∈
      (login_page
        { data_store := [], failed_attempts := 0, authorized := false,
          current_user := "", file := FileState.missing }
        "alice" "pw" [1]).2.2 ∧
    (100000 : Nat) = PBKDF2_ITERATIONS :=
  ⟨by decide,
   c8_fixed_iteration_count.2.2.1
     { data_store := [], failed_attempts := 0, authorized := false,
       current_user := "", file := FileState.missing }
     "alice" "pw" [1] 100000 (by decide)⟩

/-! ### C9 -/

/-- C9: the retrieve/decrypt page is read-only: for every session state,
every searched ciphertext input and every passkey — lookup miss, decryption
failure or success alike — the returned state is the input state, so the
in-memory store is unchanged and nothing is written to the backing file. -/
theorem c9_retrieve_read_only (s : AppState) (ci : CipherInput) (pk : String) :
    (retrieve_data_page s ci pk).2.1 = s ∧
    (retrieve_data_page s ci pk).2.1.data_store = s.data_store ∧
    (retrieve_data_page s ci pk).2.1.file = s.file := by
  have h := retrieve_preserves_state s ci pk
  exact ⟨h, by rw [h], by rw [h]⟩

/-! ### C10 -/

/-- C10: entry lookup for decryption takes the FIRST entry (smallest index)
of the current user's list whose stored `encrypted_data` exactly equals the
searched ciphertext — so with duplicate ciphertexts the earlier-appended
entry's salt is the one used — and when no entry matches, the page fails
with the not-found error with an empty derivation trace, i.e. before any
key derivation. -/
theorem c10_lookup_first_exact_match (s : AppState) (acct : Account)
    (pk : String) (t : FernetToken) (hpk : pk ≠ "")
    (hl : lookupStore s.data_store s.current_user = some acct) :
    (∀ (l1 l2 : List Entry) (e : Entry),
        acct.entries = l1 ++ e :: l2 →
        (∀ x ∈ l1, x.encrypted_data ≠ t) →
        e.encrypted_data = t →
        retrieve_data_page s (CipherInput.token t) pk =
          (match fernet_decrypt
              (derive_key pk (urlsafe_b64decode e.entry_salt) PBKDF2_ITERATIONS)
              t with
           | some d => (RetrieveResult.decrypted d, s, [PBKDF2_ITERATIONS])
           | none => (RetrieveResult.decryptError, s, [PBKDF2_ITERATIONS]))) ∧
    ((∀ x ∈ acct.entries, x.encrypted_data ≠ t) →
        retrieve_data_page s (CipherInput.token t) pk =
          (RetrieveResult.notFound, s, [])) := by
  constructor
  · intro l1 l2 e hsplit hnone he
    have hfind : acct.entries.find? (fun x => x.encrypted_data = t) = some e := by
      rw [hsplit]
      exact find?_first_match _ l1 l2 e
        (fun x hx => by simp [hnone x hx]) (by simp [he])
    cases hdec : fernet_decrypt
        (derive_key pk (urlsafe_b64decode e.entry_salt) PBKDF2_ITERATIONS) t with
    | some d => simp [retrieve_data_page, hpk, hl, hfind, hdec]
    | none => simp [retrieve_data_page, hpk, hl, hfind, hdec]
  · intro hall
    have hfind : acct.entries.find? (fun x => x.encrypted_data = t) = none :=
      find?_none_of_all _ _ (fun x hx => by simp [hall x hx])
    simp [retrieve_data_page, hpk, hl, hfind]

/-- Witness for C10: two stored entries with the SAME ciphertext but
different salts; the earlier one's salt decrypts the search. -/
theorem c10_lookup_first_exact_match_witness :
    retrieve_data_page
      { data_store :=
          [("alice",
            { password_salt := urlsafe_b64encode [0],
              password_hash := derive_key "pw" [0] PBKDF2_ITERATIONS,
              entries :=
                [{ encrypted_data :=
                     fernet_encrypt (derive_key "k" [1] PBKDF2_ITERATIONS) [5] "d",
                   entry_salt := urlsafe_b64encode [1] },
                 { encrypted_data :=
                     fernet_encrypt (derive_key "k" [1] PBKDF2_ITERATIONS) [5] "d",
                   entry_salt := urlsafe_b64encode [2] }] })],
        failed_attempts := 0, authorized := true, current_user := "alice",
        file := FileState.missing }
      (CipherInput.token
        (fernet_encrypt (derive_key "k" [1] PBKDF2_ITERATIONS) [5] "d")) "k" =
      (RetrieveResult.decrypted "d",
       { data_store :=
           [("alice",
             { password_salt := urlsafe_b64encode [0],
               password_hash := derive_key "pw" [0] PBKDF2_ITERATIONS,
               entries :=
                 [{ encrypted_data :=
                      fernet_encrypt (derive_key "k" [1] PBKDF2_ITERATIONS) [5] "d",
                    entry_salt := urlsafe_b64encode [1] },
                  { encrypted_data :=
                      fernet_encrypt (derive_key "k" [1] PBKDF2_ITERATIONS) [5] "d",
                    entry_salt := urlsafe_b64encode [2] }] })],
         failed_attempts := 0, authorized := true, current_user := "alice",
         file := FileState.missing }, [PBKDF2_ITERATIONS]) := by
  have h := (c10_lookup_first_exact_match
      { data_store :=
          [("alice",
            { password_salt := urlsafe_b64encode [0],
              password_hash := derive_key "pw" [0] PBKDF2_ITERATIONS,
              entries :=
                [{ encrypted_data :=
                     fernet_encrypt (derive_key "k" [1] PBKDF2_ITERATIONS) [5] "d",
                   entry_salt := urlsafe_b64encode [1] },
                 { encrypted_data :=
                     fernet_encrypt (derive_key "k" [1] PBKDF2_ITERATIONS) [5] "d",
                   entry_salt := urlsafe_b64encode [2] }] })],
        failed_attempts := 0, authorized := true, current_user := "alice",
        file := FileState.missing }
      { password_salt := urlsafe_b64encode [0],
        password_hash := derive_key "pw" [0] PBKDF2_ITERATIONS,
        entries :=
          [{ encrypted_data :=
               fernet_encrypt (derive_key "k" [1] PBKDF2_ITERATIONS) [5] "d",
             entry_salt := urlsafe_b64encode [1] },
           { encrypted_data :=
               fernet_encrypt (derive_key "k" [1] PBKDF2_ITERATIONS) [5] "d",
             entry_salt := urlsafe_b64encode [2] }] }
      "k"
      (fernet_encrypt (derive_key "k" [1] PBKDF2_ITERATIONS) [5] "d")
      (by decide) (by decide)).1
      []
      [{ encrypted_data :=
           fernet_encrypt (derive_key "k" [1] PBKDF2_ITERATIONS) [5] "d",
         entry_salt := urlsafe_b64encode [2] }]
      { encrypted_data :=
          fernet_encrypt (derive_key "k" [1] PBKDF2_ITERATIONS) [5] "d",
        entry_salt := urlsafe_b64encode [1] }
      rfl (by simp) rfl
  rw [h]
  rfl
